import Mathlib

/-!
Verification development for the EPSG finder application (`src/app.py`).

The core logic consists of three pure functions plus a batch block:
  * `dms_to_dd` — degrees/minutes/seconds/direction to signed decimal degrees;
  * `get_epsg` — UTM zone label and EPSG code from (lat, lon);
  * `get_projection_info` — the five-entry projection table;
  * the module-level CSV batch block (lines 113-132 of app.py).

Real-valued coordinates are embedded as rationals; Python's `int()`
truncation toward zero is `pyInt` below.
-/

/-- Python `int()` applied to a real value: truncation toward zero
(floor for non-negative arguments, ceiling for negative ones). -/
def pyInt (q : ℚ) : ℤ := if 0 ≤ q then ⌊q⌋ else ⌈q⌉

/-- Embedding of `dms_to_dd(degrees, minutes, seconds, direction)`
(app.py lines 22-26): `dd = degrees + minutes / 60 + seconds / 3600`,
then `dd *= -1` when `direction in ['S', 'W']`. -/
def dms_to_dd (degrees minutes seconds : ℚ) (direction : String) : ℚ :=
  let dd := degrees + minutes / 60 + seconds / 3600
  if direction ∈ ["S", "W"] then dd * (-1) else dd

/-- Embedding of `get_epsg(lat, lon)` (app.py lines 53-58):
`zone_number = int((lon + 180) / 6) + 1`,
`hemisphere = 'N' if lat >= 0 else 'S'`,
`epsg_code = 32600 + zone_number if lat >= 0 else 32700 + zone_number`,
`utm_zone = f"{zone_number}{hemisphere}"`. -/
def get_epsg (lat lon : ℚ) : String × ℤ :=
  let zone_number : ℤ := pyInt ((lon + 180) / 6) + 1
  let hemisphere : String := if lat ≥ 0 then "N" else "S"
  let epsg_code : ℤ := if lat ≥ 0 then 32600 + zone_number else 32700 + zone_number
  let utm_zone : String := toString zone_number ++ hemisphere
  (utm_zone, epsg_code)

/-- Success predicate of `pyproj.CRS.from_epsg` (app.py line 63) on the
codes `get_epsg` derives, i.e. membership in the EPSG registry: the WGS 84
UTM zone codes 32601-32660 and 32701-32760 plus the UPS codes 32661 and
32761 are registered, while the neighbouring codes these formulas produce
for out-of-range longitudes (such as 32600, 32700 or 32797) are assigned
to no system, so `from_epsg` raises `CRSError` on them.  (Registered codes
far outside this band, reachable only from longitudes hundreds of degrees
out of range, are not tracked and treated as unregistered.) -/
def epsgRegistered (code : ℤ) : Bool :=
  decide ((32601 ≤ code ∧ code ≤ 32661) ∨ (32701 ≤ code ∧ code ≤ 32761))

/-- Embedding of `get_projection_info(lat, lon)` (app.py lines 60-71): the
local `utm = pyproj.CRS.from_epsg(utm_epsg)` call raises `CRSError` when
the derived code is not in the EPSG registry (`epsgRegistered`), and then
no dict is returned; otherwise the function returns the dict, modelled as
an ordered association list.  The `pyproj.CRS("EPSG:4326")` and
`pyproj.CRS("EPSG:3857")` constructions use constant valid codes and
cannot raise. -/
def get_projection_info (lat lon : ℚ) : Except Unit (List (String × String)) :=
  let p := get_epsg lat lon
  if epsgRegistered p.2 then
    Except.ok
      [("WGS84 (Geographic)", "EPSG:4326"),
       ("UTM Zone " ++ p.1, "EPSG:" ++ toString p.2),
       ("Web Mercator", "EPSG:3857"),
       ("Equal Earth", "EPSG:8857"),
       ("World Cylindrical Equal Area", "EPSG:54034")]
  else Except.error ()

/-- Number of returned projection entries, when the resolution returned at
all. -/
def entriesLength (r : Except Unit (List (String × String))) : Option ℕ :=
  match r with
  | Except.ok l => some l.length
  | Except.error _ => none

/-- The i-th returned projection entry, when the resolution returned at
all. -/
def entryAt (r : Except Unit (List (String × String))) (i : ℕ) :
    Option (String × String) :=
  match r with
  | Except.ok l => l[i]?
  | Except.error _ => none

/-- A cell of an uploaded CSV table: either a numeric value or a
non-numeric string (as pandas exposes it to the `df.apply` lambdas). -/
inductive Cell where
  | num (q : ℚ)
  | str (s : String)
deriving DecidableEq

/-- One output row of the batch block: the retained `lat`/`lon` columns plus
the derived `UTM Zone`, `EPSG Code` and `EPSG Link` columns
(app.py lines 119-122). -/
structure OutRow where
  lat : ℚ
  lon : ℚ
  utmZone : String
  epsgCode : ℤ
  epsgLink : String
deriving DecidableEq

/-- Observable outcome of the CSV batch block (app.py lines 113-132):
a processed dataframe, the missing-columns `st.error` branch, or the
`except Exception` branch (`Error processing file`). -/
inductive BatchOutcome where
  | success (rows : List OutRow)
  | missingColumns
  | procError
deriving DecidableEq

/-- An uploaded CSV table as pandas presents it: column names and rows of
cells aligned with the columns. -/
structure Table where
  cols : List String
  rows : List (List Cell)

/-- Look a cell up by column name (first matching column), as `row['lat']`
does after column selection. -/
def getCell (cols : List String) (row : List Cell) (name : String) : Option Cell :=
  match List.findIdx? (fun c => c = name) cols with
  | some i => row[i]?
  | none => none

/-- The derived output row for numeric coordinates `lat`, `lon`:
`get_epsg` zone label and code, and the link `f"https://epsg.io/{e}"`. -/
def mkOutRow (lat lon : ℚ) : OutRow :=
  { lat := lat, lon := lon,
    utmZone := (get_epsg lat lon).1,
    epsgCode := (get_epsg lat lon).2,
    epsgLink := "https://epsg.io/" ++ toString (get_epsg lat lon).2 }

/-- One row of the `df.apply` traversals: applying `get_epsg` to a row whose
`lat` or `lon` cell is not numeric raises a `TypeError` in Python (string
compared/added to a number), modelled as `Except.error ()`.  (When pandas
reads a column containing any non-numeric entry, the column is object-typed;
either way the traversal raises on the first row it cannot process.) -/
def processRow (cols : List String) (row : List Cell) : Except Unit OutRow :=
  match getCell cols row "lat", getCell cols row "lon" with
  | some (Cell.num lat), some (Cell.num lon) => Except.ok (mkOutRow lat lon)
  | _, _ => Except.error ()

/-- Sequential row traversal with Python exception semantics: the first
raising row aborts the whole traversal (as `df.apply` does). -/
def mapRowsE (f : List Cell → Except Unit OutRow) :
    List (List Cell) → Except Unit (List OutRow)
  | [] => Except.ok []
  | r :: rs =>
    match f r with
    | Except.error e => Except.error e
    | Except.ok o =>
      match mapRowsE f rs with
      | Except.error e => Except.error e
      | Except.ok os => Except.ok (o :: os)

/-- Total version of `processRow` used to state the all-numeric result
(the default branch is never reached under the all-numeric hypothesis). -/
def processRowD (cols : List String) (row : List Cell) : OutRow :=
  match processRow cols row with
  | Except.ok o => o
  | Except.error _ => mkOutRow 0 0

/-- Lower-casing of a column name (`df.columns.str.lower()`): character-wise
case mapping (the column names in play are ASCII). -/
def strLower (s : String) : String := String.mk (s.data.map Char.toLower)

/-- Embedding of the CSV batch block (app.py lines 113-132): lower-case the
column names, check for `lat` and `lon`, then derive the output columns row
by row; an exception anywhere inside is caught by the surrounding
`try/except`, yielding the `Error processing file` branch. -/
def resolveBatch (t : Table) : BatchOutcome :=
  let cols := t.cols.map strLower
  if "lat" ∈ cols ∧ "lon" ∈ cols then
    match mapRowsE (processRow cols) t.rows with
    | Except.ok rs => BatchOutcome.success rs
    | Except.error _ => BatchOutcome.procError
  else BatchOutcome.missingColumns

/-- Toward-zero truncation of a rational, stated from the claim's wording
(floor of the absolute value, signed), for comparison with the embedded
Python `int()`. -/
def truncTowardZero (q : ℚ) : ℤ := if q < 0 then -⌊-q⌋ else ⌊q⌋

/-- The `resolveUtm` contract stated from the claim's wording: zone number
is the toward-zero truncation of `(lon + 180) / 6` plus 1, hemisphere is
`"N"` exactly when `0 ≤ lat`, the EPSG code is the base (32600 north,
32700 south) plus the zone number, and the label is the decimal zone
number followed by the hemisphere letter. -/
def specResolveUtm (lat lon : ℚ) : String × ℤ :=
  let zone : ℤ := truncTowardZero ((lon + 180) / 6) + 1
  let hemi : String := if 0 ≤ lat then "N" else "S"
  (toString zone ++ hemi, (if 0 ≤ lat then 32600 else 32700) + zone)

/-- Evaluation helper: `pyInt` at a non-negative rational lying in `[n, n+1)`. -/
theorem pyInt_eq_of_nonneg (q : ℚ) (n : ℤ) (h0 : 0 ≤ q) (h1 : (n : ℚ) ≤ q)
    (h2 : q < n + 1) : pyInt q = n := by
  rw [pyInt, if_pos h0]
  exact Int.floor_eq_iff.mpr ⟨h1, by exact_mod_cast h2⟩

/-- The two truncation descriptions agree. -/
theorem pyInt_eq_truncTowardZero (q : ℚ) : pyInt q = truncTowardZero q := by
  rw [pyInt, truncTowardZero]
  rcases lt_or_le q 0 with h | h
  · rw [if_neg (not_le.mpr h), if_pos h]
    rw [Int.floor_neg, neg_neg]
  · rw [if_pos h, if_neg (not_lt.mpr h)]

/-- If every row maps to `Except.ok` of a known value, the traversal
succeeds with the rows mapped in order. -/
theorem mapRowsE_ok (f : List Cell → Except Unit OutRow) (g : List Cell → OutRow)
    (rows : List (List Cell)) (h : ∀ r ∈ rows, f r = Except.ok (g r)) :
    mapRowsE f rows = Except.ok (rows.map g) := by
  induction rows with
  | nil => rfl
  | cons r rs ih =>
    have hr : f r = Except.ok (g r) := h r (by simp)
    have hrs := ih fun x hx => h x (by simp [hx])
    simp [mapRowsE, hr, hrs]

/-- If some row raises, the traversal as a whole raises. -/
theorem mapRowsE_error (f : List Cell → Except Unit OutRow)
    (rows : List (List Cell)) (r : List Cell) (hr : r ∈ rows)
    (he : f r = Except.error ()) : mapRowsE f rows = Except.error () := by
  induction rows with
  | nil => cases hr
  | cons a as ih =>
    rcases List.mem_cons.mp hr with h1 | h2
    · subst h1
      simp [mapRowsE, he]
    · cases hfa : f a with
      | error e => simp [mapRowsE, hfa]
      | ok o => simp [mapRowsE, hfa, ih h2]

/-- A row whose `lat` cell is a non-numeric string raises. -/
theorem processRow_error_of_str (cols : List String) (row : List Cell) (s : String)
    (h : getCell cols row "lat" = some (Cell.str s)) :
    processRow cols row = Except.error () := by
  cases hlon : getCell cols row "lon" with
  | none => simp [processRow, h, hlon]
  | some c => cases c <;> simp [processRow, h, hlon]

/-- Claim C1: `get_epsg` returns the zone number `trunc((lon + 180) / 6) + 1`
(truncation toward zero), hemisphere `"N"` when `lat ≥ 0` (including
`lat = 0`) and `"S"` otherwise, EPSG code `32600 + zone` (north) or
`32700 + zone` (south), and the label `zone ++ hemisphere`; in particular
`get_epsg 0 0 = ("31N", 32631)`. -/
theorem get_epsg_matches_spec (lat lon : ℚ) :
    get_epsg lat lon = specResolveUtm lat lon ∧ get_epsg 0 0 = ("31N", 32631) := by
  constructor
  · simp only [get_epsg, specResolveUtm, pyInt_eq_truncTowardZero, ge_iff_le]
    rcases le_or_lt 0 lat with h | h
    · simp [h]
    · simp [not_le.mpr h]
  · have hp : pyInt ((0 + 180) / 6 : ℚ) = 30 :=
      pyInt_eq_of_nonneg _ 30 (by norm_num) (by norm_num) (by norm_num)
    simp only [get_epsg, hp]
    norm_num
    decide

/-- Claim C7: for a direction in the enum {N, S, E, W}, `dms_to_dd` returns
`degrees + minutes/60 + seconds/3600`, negated exactly for S and W; no
range validation restricts degrees, minutes or seconds. -/
theorem dms_to_dd_enum_formula (d m s : ℚ) (dir : String)
    (_h : dir ∈ ["N", "S", "E", "W"]) :
    dms_to_dd d m s dir =
      if dir = "S" ∨ dir = "W" then -(d + m / 60 + s / 3600)
      else d + m / 60 + s / 3600 := by
  have hmem : (dir ∈ ["S", "W"]) ↔ (dir = "S" ∨ dir = "W") := by simp
  simp only [dms_to_dd, hmem]
  by_cases hsw : dir = "S" ∨ dir = "W"
  · rw [if_pos hsw, if_pos hsw]
    ring
  · rw [if_neg hsw, if_neg hsw]

/-- Witness for C7 at out-of-range minutes and seconds with direction S. -/
theorem dms_to_dd_enum_formula_witness :
    dms_to_dd 10 75 30 "S" =
      if ("S" : String) = "S" ∨ ("S" : String) = "W" then -(10 + 75 / 60 + 30 / 3600 : ℚ)
      else (10 + 75 / 60 + 30 / 3600 : ℚ) :=
  dms_to_dd_enum_formula 10 75 30 "S" (by decide)

/-- Claim C8: `dms_to_dd` is negation-symmetric in the direction, S against
N and W against E. -/
theorem dms_to_dd_negation_symmetric (d m s : ℚ) :
    dms_to_dd d m s "S" = -(dms_to_dd d m s "N") ∧
    dms_to_dd d m s "W" = -(dms_to_dd d m s "E") := by
  refine ⟨?_, ?_⟩ <;>
  · simp only [dms_to_dd]
    rw [if_pos (by decide), if_neg (by decide)]
    ring

/-- Claim C3, counterexample: on the direction "X" (outside {N, S, E, W})
`dms_to_dd` does not fail; it returns the unnegated value, silently
treating the invalid direction as positive. -/
theorem dms_to_dd_invalid_direction_returns :
    dms_to_dd 1 0 0 "X" = 1 := by
  simp only [dms_to_dd]
  rw [if_neg (by decide)]
  norm_num

/-- Claim C3 as amended: for every direction outside {N, S, E, W},
`dms_to_dd` raises no error and returns the unnegated value
`degrees + minutes/60 + seconds/3600`. -/
theorem dms_to_dd_outside_enum_positive (d m s : ℚ) (dir : String)
    (h : dir ∉ ["N", "S", "E", "W"]) :
    dms_to_dd d m s dir = d + m / 60 + s / 3600 := by
  have hsw : ¬(dir ∈ ["S", "W"]) := by
    intro hmem
    have hd : dir = "S" ∨ dir = "W" := by simpa using hmem
    rcases hd with rfl | rfl
    · exact h (by decide)
    · exact h (by decide)
  simp only [dms_to_dd]
  rw [if_neg hsw]

/-- Witness for the amended C3 at direction "Q". -/
theorem dms_to_dd_outside_enum_positive_witness :
    dms_to_dd 3 15 45 "Q" = 3 + 15 / 60 + 45 / 3600 :=
  dms_to_dd_outside_enum_positive 3 15 45 "Q" (by decide)

/-- Claim C10: every direction other than "S" and "W" (including arbitrary
strings outside the enum) is treated exactly like a positive direction:
`dms_to_dd` returns `degrees + minutes/60 + seconds/3600` with no error. -/
theorem dms_to_dd_default_positive (d m s : ℚ) (dir : String)
    (h1 : dir ≠ "S") (h2 : dir ≠ "W") :
    dms_to_dd d m s dir = d + m / 60 + s / 3600 := by
  simp only [dms_to_dd]
  rw [if_neg (by simp [h1, h2])]

/-- Witness for C10 at direction "Z". -/
theorem dms_to_dd_default_positive_witness :
    dms_to_dd 2 30 0 "Z" = 2 + 30 / 60 + 0 / 3600 :=
  dms_to_dd_default_positive 2 30 0 "Z" (by decide) (by decide)

/-- Claim C5, counterexample: at latitude 0 and longitude 1000 the derived
code is 32797, which is in no EPSG registry, so `pyproj.CRS.from_epsg`
raises and `get_projection_info` does not return five entries (or any). -/
theorem get_projection_info_out_of_range_raises :
    get_projection_info 0 1000 = Except.error () := by
  have hp : pyInt ((1000 + 180) / 6 : ℚ) = 196 :=
    pyInt_eq_of_nonneg _ 196 (by norm_num) (by norm_num) (by norm_num)
  simp only [get_projection_info, get_epsg, hp]
  norm_num [epsgRegistered]

/-- Claim C5 as amended: for coordinates whose derived UTM EPSG code is in
the registry (which covers every longitude in [-180, 180]),
`get_projection_info` returns exactly five entries in the fixed order
WGS84 geographic, computed UTM zone, Web Mercator, Equal Earth, World
Cylindrical Equal Area; the four non-UTM entries are identical across any
two such calls and only the UTM entry depends on the coordinates.  For
coordinates whose derived code is unregistered the call raises instead of
returning. -/
theorem get_projection_info_shape (lat lon lat' lon' : ℚ)
    (h : epsgRegistered (get_epsg lat lon).2 = true)
    (h' : epsgRegistered (get_epsg lat' lon').2 = true) :
    entriesLength (get_projection_info lat lon) = some 5 ∧
    entryAt (get_projection_info lat lon) 0 = some ("WGS84 (Geographic)", "EPSG:4326") ∧
    entryAt (get_projection_info lat lon) 1 =
      some ("UTM Zone " ++ (get_epsg lat lon).1, "EPSG:" ++ toString (get_epsg lat lon).2) ∧
    entryAt (get_projection_info lat lon) 2 = some ("Web Mercator", "EPSG:3857") ∧
    entryAt (get_projection_info lat lon) 3 = some ("Equal Earth", "EPSG:8857") ∧
    entryAt (get_projection_info lat lon) 4 = some ("World Cylindrical Equal Area", "EPSG:54034") ∧
    entryAt (get_projection_info lat lon) 0 = entryAt (get_projection_info lat' lon') 0 ∧
    entryAt (get_projection_info lat lon) 2 = entryAt (get_projection_info lat' lon') 2 ∧
    entryAt (get_projection_info lat lon) 3 = entryAt (get_projection_info lat' lon') 3 ∧
    entryAt (get_projection_info lat lon) 4 = entryAt (get_projection_info lat' lon') 4 := by
  have hok : get_projection_info lat lon = Except.ok
      [("WGS84 (Geographic)", "EPSG:4326"),
       ("UTM Zone " ++ (get_epsg lat lon).1, "EPSG:" ++ toString (get_epsg lat lon).2),
       ("Web Mercator", "EPSG:3857"),
       ("Equal Earth", "EPSG:8857"),
       ("World Cylindrical Equal Area", "EPSG:54034")] := by
    simp only [get_projection_info]
    rw [if_pos h]
  have hok' : get_projection_info lat' lon' = Except.ok
      [("WGS84 (Geographic)", "EPSG:4326"),
       ("UTM Zone " ++ (get_epsg lat' lon').1, "EPSG:" ++ toString (get_epsg lat' lon').2),
       ("Web Mercator", "EPSG:3857"),
       ("Equal Earth", "EPSG:8857"),
       ("World Cylindrical Equal Area", "EPSG:54034")] := by
    simp only [get_projection_info]
    rw [if_pos h']
  rw [hok, hok']
  exact ⟨rfl, rfl, rfl, rfl, rfl, rfl, rfl, rfl, rfl, rfl⟩

/-- Witness for the amended C5: UTM zone 34N (code 32634, from latitude 10,
longitude 20) and UTM zone 56S (code 32756, from latitude -33, longitude
151) are both registered, and the first call returns five entries. -/
theorem get_projection_info_shape_witness :
    entriesLength (get_projection_info 10 20) = some 5 :=
  (get_projection_info_shape 10 20 (-33) 151
    (by
      have hp : pyInt ((20 + 180) / 6 : ℚ) = 33 :=
        pyInt_eq_of_nonneg _ 33 (by norm_num) (by norm_num) (by norm_num)
      simp only [get_epsg, hp]
      norm_num [epsgRegistered])
    (by
      have hp : pyInt ((151 + 180) / 6 : ℚ) = 55 :=
        pyInt_eq_of_nonneg _ 55 (by norm_num) (by norm_num) (by norm_num)
      simp only [get_epsg, hp]
      norm_num [epsgRegistered])).1

/-- Claim C4: a table whose lower-cased column names lack "lat" or lack
"lon" makes the batch fail as a whole with the missing-columns error, and
no output rows are produced. -/
theorem resolveBatch_missing_columns (t : Table)
    (h : "lat" ∉ t.cols.map strLower ∨ "lon" ∉ t.cols.map strLower) :
    resolveBatch t = BatchOutcome.missingColumns ∧
    ∀ rs, resolveBatch t ≠ BatchOutcome.success rs := by
  have hc : ¬("lat" ∈ t.cols.map strLower ∧ "lon" ∈ t.cols.map strLower) := by
    tauto
  have hm : resolveBatch t = BatchOutcome.missingColumns := by
    simp only [resolveBatch]
    rw [if_neg hc]
  exact ⟨hm, fun rs hrs => by rw [hm] at hrs; cases hrs⟩

/-- Witness for C4: an upper-case "LAT" column is recognised, but with no
"lon"-named column the batch yields the missing-columns error. -/
theorem resolveBatch_missing_columns_witness :
    resolveBatch ⟨["LAT", "longitude"], [[Cell.num 1, Cell.num 2]]⟩ =
      BatchOutcome.missingColumns :=
  (resolveBatch_missing_columns ⟨["LAT", "longitude"], [[Cell.num 1, Cell.num 2]]⟩
    (Or.inr (by decide))).1

/-- Claim C9: a table with the required columns and zero rows resolves to
an empty output without error. -/
theorem resolveBatch_empty_rows (t : Table)
    (h1 : "lat" ∈ t.cols.map strLower) (h2 : "lon" ∈ t.cols.map strLower)
    (h3 : t.rows = []) : resolveBatch t = BatchOutcome.success [] := by
  simp only [resolveBatch]
  rw [if_pos ⟨h1, h2⟩, h3]
  rfl

/-- Witness for C9 on a zero-row table with mixed-case column names. -/
theorem resolveBatch_empty_rows_witness :
    resolveBatch ⟨["Lat", "LON"], []⟩ = BatchOutcome.success [] :=
  resolveBatch_empty_rows ⟨["Lat", "LON"], []⟩ (by decide) (by decide) rfl

/-- Claim C2, counterexample: a three-row table whose middle row holds the
non-numeric latitude "oops" does not yield a three-row output with an error
marker on one row; the whole batch aborts into the `except` branch and no
output is produced. -/
theorem resolveBatch_nonNumeric_aborts_batch :
    resolveBatch ⟨["lat", "lon"],
      [[Cell.num 51, Cell.num 0],
       [Cell.str "oops", Cell.num 7],
       [Cell.num (-33), Cell.num 151]]⟩ = BatchOutcome.procError := by
  decide

/-- Claim C2 as amended: a non-numeric latitude cell in any row of a table
with the required columns aborts the whole batch with the processing
error; no output rows are produced, and the other rows are not reported. -/
theorem resolveBatch_nonNumeric_whole_batch_error (t : Table)
    (h1 : "lat" ∈ t.cols.map strLower) (h2 : "lon" ∈ t.cols.map strLower)
    (r : List Cell) (hr : r ∈ t.rows) (s : String)
    (hs : getCell (t.cols.map strLower) r "lat" = some (Cell.str s)) :
    resolveBatch t = BatchOutcome.procError ∧
    ∀ rs, resolveBatch t ≠ BatchOutcome.success rs := by
  have he : processRow (t.cols.map strLower) r = Except.error () :=
    processRow_error_of_str _ r s hs
  have hm : mapRowsE (processRow (t.cols.map strLower)) t.rows = Except.error () :=
    mapRowsE_error _ t.rows r hr he
  have hp : resolveBatch t = BatchOutcome.procError := by
    simp only [resolveBatch]
    rw [if_pos ⟨h1, h2⟩, hm]
  exact ⟨hp, fun rs hrs => by rw [hp] at hrs; cases hrs⟩

/-- Witness for the amended C2 on a two-row table whose second row has a
string latitude. -/
theorem resolveBatch_nonNumeric_whole_batch_error_witness :
    resolveBatch ⟨["lat", "lon"],
      [[Cell.num 10, Cell.num 20], [Cell.str "abc", Cell.num 30]]⟩ =
      BatchOutcome.procError :=
  (resolveBatch_nonNumeric_whole_batch_error
    ⟨["lat", "lon"], [[Cell.num 10, Cell.num 20], [Cell.str "abc", Cell.num 30]]⟩
    (by decide) (by decide)
    [Cell.str "abc", Cell.num 30]
    (List.mem_cons_of_mem _ (List.mem_cons_self _ _))
    "abc" rfl).1

/-- Claim C6: on a table with the required columns and all-numeric
coordinates the batch succeeds, producing exactly one output row per input
row in input order, where the row derived from numeric coordinates
`(la, lo)` keeps them and carries the `get_epsg` zone label and EPSG code
together with the link `"https://epsg.io/" ++ code`. -/
theorem resolveBatch_all_numeric (t : Table)
    (h1 : "lat" ∈ t.cols.map strLower) (h2 : "lon" ∈ t.cols.map strLower)
    (hnum : ∀ r ∈ t.rows, ∃ la lo,
      getCell (t.cols.map strLower) r "lat" = some (Cell.num la) ∧
      getCell (t.cols.map strLower) r "lon" = some (Cell.num lo)) :
    resolveBatch t =
      BatchOutcome.success (t.rows.map (processRowD (t.cols.map strLower))) ∧
    (t.rows.map (processRowD (t.cols.map strLower))).length = t.rows.length ∧
    (∀ r ∈ t.rows, ∀ la lo,
      getCell (t.cols.map strLower) r "lat" = some (Cell.num la) →
      getCell (t.cols.map strLower) r "lon" = some (Cell.num lo) →
      processRowD (t.cols.map strLower) r = mkOutRow la lo) ∧
    ∀ la lo : ℚ, mkOutRow la lo =
      { lat := la, lon := lo, utmZone := (get_epsg la lo).1,
        epsgCode := (get_epsg la lo).2,
        epsgLink := "https://epsg.io/" ++ toString (get_epsg la lo).2 } := by
  have hok : ∀ r ∈ t.rows,
      processRow (t.cols.map strLower) r =
        Except.ok (processRowD (t.cols.map strLower) r) := by
    intro r hr
    obtain ⟨la, lo, hla, hlo⟩ := hnum r hr
    have hpr : processRow (t.cols.map strLower) r = Except.ok (mkOutRow la lo) := by
      simp [processRow, hla, hlo]
    rw [hpr, processRowD, hpr]
  refine ⟨?_, by simp, ?_, fun la lo => rfl⟩
  · have hm := mapRowsE_ok (processRow (t.cols.map strLower))
      (processRowD (t.cols.map strLower)) t.rows hok
    simp only [resolveBatch]
    rw [if_pos ⟨h1, h2⟩, hm]
  · intro r hr la lo hla hlo
    have hpr : processRow (t.cols.map strLower) r = Except.ok (mkOutRow la lo) := by
      simp [processRow, hla, hlo]
    rw [processRowD, hpr]

/-- Witness for C6 on a two-row all-numeric table. -/
theorem resolveBatch_all_numeric_witness :
    resolveBatch ⟨["lat", "lon"], [[Cell.num 10, Cell.num 20], [Cell.num (-33), Cell.num 151]]⟩ =
      BatchOutcome.success
        ([[Cell.num 10, Cell.num 20], [Cell.num (-33), Cell.num 151]].map
          (processRowD (["lat", "lon"].map strLower))) :=
  (resolveBatch_all_numeric
    ⟨["lat", "lon"], [[Cell.num 10, Cell.num 20], [Cell.num (-33), Cell.num 151]]⟩
    (by decide) (by decide)
    (by
      intro r hr
      rcases List.mem_cons.mp hr with h | h
      · subst h
        exact ⟨10, 20, rfl, rfl⟩
      · rw [List.mem_singleton] at h
        subst h
        exact ⟨-33, 151, rfl, rfl⟩)).1
